import Mathlib

/-!
Verification of the connection-establishment layer of the databricks-sql-go
driver (`connector.go`).

The Go source is embedded shallowly:

* `Config` mirrors the fields of `internal/config.Config` that `connector.go`
  reads or writes.  Its `SessionParams` field is a Go `map[string]string`;
  since Go map iteration order is unspecified (and deliberately randomized
  across runs), the map is modelled as the association list in the order the
  runtime happens to enumerate it during one run of `Connect`.
* External collaborators that `Connect` calls but whose code is not part of
  the verified source (`client.InitThriftClient`, `sentinel.Sentinel.Watch`,
  `conn.ExecContext`) are abstracted as outcome oracles passed to `Connect`,
  exactly at the interface boundary the spec draws for them.
* `Connect` returns, besides its outcome, a trace of observable events: the
  single bounded-wait invocation (with the poll interval, timeout and request
  it was given) and every SET statement text issued through the connection.
* Go panics (nil-pointer dereferences) are modelled by an explicit
  `ConnectOutcome.panicked` constructor: the function neither returns a
  connection nor an error in that case.
-/

namespace DBSQL

/-- Error values as produced by the `github.com/pkg/errors` library used by
the source: either a base error or a wrapping of an inner cause with a
message (`errors.Wrap` preserves the cause). -/
inductive Err where
  | base (msg : String)
  | wrap (cause : Err) (msg : String)
deriving DecidableEq, Repr

/-- `true` exactly when the error is a wrapping of some inner cause. -/
def Err.isWrapped : Err → Bool
  | Err.wrap _ _ => true
  | Err.base _ => false

/-- Modelled from the spec: the repository's `wrapErr` helper (not under
`src/`) attaches a message to an error without discarding the original
cause. -/
def wrapErr (err : Err) (msg : String) : Err := Err.wrap err msg

/-- Modelled from the spec: the repository's `wrapErrf` helper (not under
`src/`) attaches a formatted message to an error without discarding the
original cause; the caller passes the already-formatted message here. -/
def wrapErrf (err : Err) (msg : String) : Err := Err.wrap err msg

/-- The configuration record (`internal/config.Config`), restricted to the
fields `connector.go` touches.  `SessionParams` is a Go map; it is modelled
as the association list in the enumeration order of one particular run. -/
structure Config where
  Host : String
  Port : Int
  AccessToken : String
  HTTPPath : String
  MaxRows : Int
  QueryTimeoutSeconds : Int
  Catalog : String
  Schema : String
  UserAgentEntry : String
  PollInterval : Nat
  DefaultTimeout : Nat
  ThriftProtocolVersion : Int
  CanUseMultipleCatalogs : Bool
  SessionParams : List (String × String)
deriving DecidableEq, Repr

/-- Thrift `TIdentifier` is a string newtype. -/
abbrev TIdentifier := String

/-- Thrift `TNamespace`: optional catalog and schema identifiers (Go
pointers modelled as `Option`). -/
structure TNamespace where
  CatalogName : Option TIdentifier
  SchemaName : Option TIdentifier
deriving DecidableEq, Repr

/-- Thrift `TOpenSessionReq` restricted to the fields `Connect` sets. -/
structure TOpenSessionReq where
  ClientProtocol : Int
  Configuration : List (String × String)
  InitialNamespace : TNamespace
  CanUseMultipleCatalogs : Option Bool
deriving DecidableEq, Repr

/-- Thrift `THandleIdentifier`: the fixed-size binary GUID (a byte is a
`Nat` below 256). -/
structure THandleIdentifier where
  GUID : List Nat
deriving DecidableEq, Repr

/-- Thrift `TSessionHandle`; `SessionId` is a Go pointer field, `nil`
modelled as `none`. -/
structure TSessionHandle where
  SessionId : Option THandleIdentifier
deriving DecidableEq, Repr

/-- Thrift `TOpenSessionResp` restricted to the field `Connect` reads;
`SessionHandle` is an optional Thrift field, so a response of this shape may
still carry `nil` there. -/
structure TOpenSessionResp where
  SessionHandle : Option TSessionHandle
deriving DecidableEq, Repr

/-- Opaque handle standing for the initialized Thrift client. -/
structure ThriftClient where
  clientId : Nat
deriving DecidableEq, Repr

/-- The dynamically-typed value (`any`) delivered by `sentinel.Watch`: either
a value of the expected response type or a value of some other runtime
type. -/
inductive DynVal where
  | openResp (r : TOpenSessionResp)
  | otherShape (tag : Nat)
deriving DecidableEq, Repr

/-- The connection value built on success (`conn` struct in the source). -/
structure Conn where
  id : String
  cfg : Config
  client : ThriftClient
  session : TOpenSessionResp
deriving DecidableEq, Repr

/-- Outcome of one run of `Connect`: a connection with a nil error, a nil
connection with a non-nil error, or a Go runtime panic (the function does
not return at all). -/
inductive ConnectOutcome where
  | ok (c : Conn)
  | err (e : Err)
  | panicked (msg : String)
deriving DecidableEq, Repr

/-- `true` exactly when the outcome is a returned connection. -/
def ConnectOutcome.isOk : ConnectOutcome → Bool
  | ConnectOutcome.ok _ => true
  | _ => false

/-- `true` exactly when the outcome is a returned error. -/
def ConnectOutcome.isErr : ConnectOutcome → Bool
  | ConnectOutcome.err _ => true
  | _ => false

/-- `true` exactly when the run ended in a runtime panic. -/
def ConnectOutcome.isPanicked : ConnectOutcome → Bool
  | ConnectOutcome.panicked _ => true
  | _ => false

/-- Observable events of one run of `Connect`: the single bounded-wait
invocation (with its poll interval, timeout and submitted request) and each
SET statement text issued through the new connection. -/
inductive Event where
  | watchCall (pollInterval : Nat) (defaultTimeout : Nat) (req : TOpenSessionReq)
  | execStmt (stmt : String)
deriving DecidableEq, Repr

/-- The SET statement texts of a trace, in issue order. -/
def execStmts : List Event → List String
  | [] => []
  | Event.execStmt s :: rest => s :: execStmts rest
  | Event.watchCall _ _ _ :: rest => execStmts rest

/-- The lowercase hex digit for a value below 16 (`%x` formatting):
codepoint 48 is the digit zero, 87 + n reaches the letters from `a`. -/
def hexDigit (n : Nat) : Char :=
  if n < 10 then Char.ofNat (48 + n) else Char.ofNat (87 + n)

/-- One byte as exactly two lowercase hex characters, as Go's `%x` renders
each byte of a byte slice. -/
def hexByte (n : Nat) : List Char := [hexDigit (n / 16), hexDigit (n % 16)]

/-- A byte slice as its hex characters, two per byte, no separators. -/
def hexChars : List Nat → List Char
  | [] => []
  | b :: bs => hexByte b ++ hexChars bs

/-- Modelled from the spec: `client.SprintGuid` (not under `src/`) renders a
16-byte binary session identity as grouped hexadecimal — byte groups of
sizes 4, 2, 2, 2 and 6 separated by dashes; a slice of any other length
falls back to plain ungrouped hex. -/
def SprintGuid (bts : List Nat) : String :=
  if bts.length = 16 then
    String.mk (hexChars (bts.take 4) ++ ['-'] ++ hexChars ((bts.drop 4).take 2) ++ ['-'] ++
      hexChars ((bts.drop 6).take 2) ++ ['-'] ++ hexChars ((bts.drop 8).take 2) ++ ['-'] ++
      hexChars (bts.drop 10))
  else
    String.mk (hexChars bts)

/-- The catalog/schema pointer computation of `Connect` (lines 27-34): the
pointer stays `nil` for the empty string and otherwise points to the
unmodified string. -/
def resolveIdentifier (s : String) : Option TIdentifier :=
  if s ≠ "" then some s else none

/-- The open-session request built inside the sentinel's `OnDoneFn`
(lines 39-47): configured protocol version, a freshly made empty
configuration map, the resolved namespace, and a pointer to the configured
multi-catalog flag (always non-nil). -/
def buildOpenSessionReq (cfg : Config) : TOpenSessionReq :=
  { ClientProtocol := cfg.ThriftProtocolVersion
    Configuration := []
    InitialNamespace :=
      { CatalogName := resolveIdentifier cfg.Catalog
        SchemaName := resolveIdentifier cfg.Schema }
    CanUseMultipleCatalogs := some cfg.CanUseMultipleCatalogs }

/-- The statement text `fmt.Sprintf("SET \x60%s\x60 = \x60%s\x60;", k, v)`
of line 71: key and value wrapped in backticks, embedded backticks not
escaped. -/
def setStmt (k v : String) : String := "SET `" ++ k ++ "` = `" ++ v ++ "`;"

/-- The session-parameter loop of `Connect` (lines 70-77).  `exec i` is the
outcome `conn.ExecContext` (external collaborator, not under `src/`) reports
for the `i`-th issued statement.  Each iteration issues its statement and,
on error, returns that error verbatim, executing nothing further. -/
def applyParams (c : Conn) (exec : Nat → Except Err Unit) :
    List (String × String) → Nat → ConnectOutcome × List Event
  | [], _ => (ConnectOutcome.ok c, [])
  | (k, v) :: rest, i =>
    match exec i with
    | Except.error e => (ConnectOutcome.err e, [Event.execStmt (setStmt k v)])
    | Except.ok _ =>
      let r := applyParams c exec rest (i + 1)
      (r.fst, Event.execStmt (setStmt k v) :: r.snd)

/-- `connector.Connect` (lines 21-79).  The oracles model the external
collaborators: `initThriftClient` the result of `client.InitThriftClient`,
`watchResult` what `sentinel.Watch` delivers (its error covers timeout,
cancellation and the open-session call's own failure), and `exec` the
per-statement outcomes of `conn.ExecContext`.  The second component is the
event trace of the run.  Accessing the session id through a `nil`
`SessionHandle` (or a `nil` `SessionId`) on line 61 is a Go nil-pointer
dereference and is modelled as `ConnectOutcome.panicked`. -/
def Connect (cfg : Config) (initThriftClient : Except Err ThriftClient)
    (watchResult : Except Err DynVal) (exec : Nat → Except Err Unit) :
    ConnectOutcome × List Event :=
  match initThriftClient with
  | Except.error e =>
    (ConnectOutcome.err (wrapErr e "error initializing thrift client"), [])
  | Except.ok tclient =>
    let req := buildOpenSessionReq cfg
    let evs := [Event.watchCall cfg.PollInterval cfg.DefaultTimeout req]
    match watchResult with
    | Except.error e =>
      (ConnectOutcome.err (wrapErrf e ("error connecting: host=" ++ cfg.Host ++ " port=" ++
        toString cfg.Port ++ ", httpPath=" ++ cfg.HTTPPath)), evs)
    | Except.ok res =>
      match res with
      | DynVal.otherShape _ =>
        (ConnectOutcome.err (Err.base "databricks: invalid open session response"), evs)
      | DynVal.openResp session =>
        match session.SessionHandle with
        | none => (ConnectOutcome.panicked "invalid memory address or nil pointer dereference", evs)
        | some handle =>
          match handle.SessionId with
          | none => (ConnectOutcome.panicked "invalid memory address or nil pointer dereference", evs)
          | some hid =>
            let c : Conn :=
              { id := SprintGuid hid.GUID, cfg := cfg, client := tclient, session := session }
            let r := applyParams c exec cfg.SessionParams 0
            (r.fst, evs ++ r.snd)

/-- A connection option is a function mutating the configuration
(`connOption` in the source). -/
abbrev connOption := Config → Config

/-- Modelled from the spec: `config.WithDefaults` (not under `src/`), the
default-initialized configuration.  Its concrete field values do not matter
for the claims proved here. -/
def WithDefaults : Config :=
  { Host := "", Port := 443, AccessToken := "", HTTPPath := "", MaxRows := 10000
    QueryTimeoutSeconds := 0, Catalog := "", Schema := "", UserAgentEntry := ""
    PollInterval := 1, DefaultTimeout := 60, ThriftProtocolVersion := 7
    CanUseMultipleCatalogs := true, SessionParams := [] }

/-- The `connector` struct: it only carries the built configuration. -/
structure Connector where
  cfg : Config
deriving DecidableEq, Repr

/-- `NewConnector` (lines 89-99): apply the options in argument order to the
default configuration and hand back the connector with a nil error; no
validation is performed (the source even carries a `// validate config?`
comment). -/
def NewConnector (options : List connOption) : Connector × Option Err :=
  ({ cfg := options.foldl (fun c opt => opt c) WithDefaults }, none)

/-- `WithServerHostname` (lines 101-105). -/
def WithServerHostname (host : String) : connOption := fun c => { c with Host := host }

/-- `WithPort` (lines 107-111). -/
def WithPort (port : Int) : connOption := fun c => { c with Port := port }

/-- `WithAccessToken` (lines 113-117). -/
def WithAccessToken (token : String) : connOption := fun c => { c with AccessToken := token }

/-- `WithHTTPPath` (lines 119-123). -/
def WithHTTPPath (path : String) : connOption := fun c => { c with HTTPPath := path }

/-- `WithMaxRows` (lines 125-131): only a non-zero argument changes the
configuration. -/
def WithMaxRows (n : Int) : connOption := fun c => if n ≠ 0 then { c with MaxRows := n } else c

/-- `WithTimeout` (lines 135-139). -/
def WithTimeout (n : Int) : connOption := fun c => { c with QueryTimeoutSeconds := n }

/-- `WithInitialNamespace` (lines 141-146). -/
def WithInitialNamespace (catalog schema : String) : connOption :=
  fun c => { c with Catalog := catalog, Schema := schema }

/-- `WithUserAgentEntry` (lines 148-153). -/
def WithUserAgentEntry (entry : String) : connOption :=
  fun c => { c with UserAgentEntry := entry }

/-- `WithSessionParams` (lines 157-161). -/
def WithSessionParams (params : List (String × String)) : connOption :=
  fun c => { c with SessionParams := params }

/-! ## Concrete values used by witnesses and counterexamples -/

/-- A sample configuration with a concrete target and no namespace. -/
def cfg0 : Config :=
  { Host := "dbc.example.com", Port := 443, AccessToken := "tok", HTTPPath := "/sql/1.0"
    MaxRows := 10000, QueryTimeoutSeconds := 0, Catalog := "", Schema := ""
    UserAgentEntry := "", PollInterval := 1, DefaultTimeout := 60
    ThriftProtocolVersion := 7, CanUseMultipleCatalogs := true, SessionParams := [] }

/-- A sample initialized Thrift client. -/
def t0 : ThriftClient := { clientId := 0 }

/-- The all-zero 16-byte GUID. -/
def guid0 : List Nat := List.replicate 16 0

/-- A concrete handle identifier. -/
def hid0 : THandleIdentifier := { GUID := guid0 }

/-- A concrete session handle with its id present. -/
def handle0 : TSessionHandle := { SessionId := some hid0 }

/-- A well-formed open-session response carrying a session handle. -/
def resp0 : TOpenSessionResp := { SessionHandle := some handle0 }

/-- A response of the expected shape whose session handle is absent
(the Thrift field is optional, so the wire can deliver this). -/
def respNoHandle : TOpenSessionResp := { SessionHandle := none }

/-- A response of the expected shape whose handle is present but whose
session id inside it is absent. -/
def respNoSid : TOpenSessionResp := { SessionHandle := some { SessionId := none } }

/-- A statement oracle under which every statement succeeds. -/
def execAllOk : Nat → Except Err Unit := fun _ => Except.ok ()

/-! ## Helper lemmas about the embedded operations -/

/-- An outcome that is not a returned connection is a returned error or a
panic (trichotomy of `ConnectOutcome`). -/
theorem outcome_not_ok_cases (o : ConnectOutcome) (h : o.isOk = false) :
    o.isErr = true ∨ o.isPanicked = true := by
  cases o <;> simp_all [ConnectOutcome.isOk, ConnectOutcome.isErr, ConnectOutcome.isPanicked]

/-- If all statement outcomes from position `i` on succeed, the parameter
loop returns the connection and issues one statement per pair, in order. -/
theorem applyParams_all_ok (c : Conn) (exec : Nat → Except Err Unit)
    (ps : List (String × String)) :
    ∀ i : Nat, (∀ j, j < ps.length → exec (i + j) = Except.ok ()) →
      applyParams c exec ps i =
        (ConnectOutcome.ok c, ps.map fun kv => Event.execStmt (setStmt kv.1 kv.2)) := by
  induction ps with
  | nil => intro i _; rfl
  | cons kv rest ih =>
    intro i h
    obtain ⟨k, v⟩ := kv
    have h0 : exec i = Except.ok () := by simpa using h 0 (Nat.succ_pos _)
    have hrest : ∀ j, j < rest.length → exec (i + 1 + j) = Except.ok () := by
      intro j hj
      have hh := h (j + 1) (by simpa using Nat.succ_lt_succ hj)
      have heq : i + (j + 1) = i + 1 + j := by omega
      rwa [heq] at hh
    simp [applyParams, h0, ih (i + 1) hrest]

/-- If the statement outcomes at positions `i..i+k-1` succeed and the one at
position `i+k` fails with `E`, the loop returns `E` itself and issues
exactly the first `k+1` statements. -/
theorem applyParams_fail_at (c : Conn) (exec : Nat → Except Err Unit) (E : Err)
    (ps : List (String × String)) :
    ∀ (i k : Nat), k < ps.length →
      (∀ j, j < k → exec (i + j) = Except.ok ()) →
      exec (i + k) = Except.error E →
      applyParams c exec ps i =
        (ConnectOutcome.err E,
          (ps.take (k + 1)).map fun kv => Event.execStmt (setStmt kv.1 kv.2)) := by
  induction ps with
  | nil => intro i k hk _ _; exact absurd hk (by simp)
  | cons kv rest ih =>
    intro i k hk hok hfail
    obtain ⟨kk, v⟩ := kv
    cases k with
    | zero =>
      have h0 : exec i = Except.error E := by simpa using hfail
      simp [applyParams, h0]
    | succ k' =>
      have h0 : exec i = Except.ok () := by simpa using hok 0 (Nat.succ_pos _)
      have hok' : ∀ j, j < k' → exec (i + 1 + j) = Except.ok () := by
        intro j hj
        have hh := hok (j + 1) (Nat.succ_lt_succ hj)
        have heq : i + (j + 1) = i + 1 + j := by omega
        rwa [heq] at hh
      have hfail' : exec (i + 1 + k') = Except.error E := by
        have heq : i + (k' + 1) = i + 1 + k' := by omega
        rwa [heq] at hfail
      have hk' : k' < rest.length := by simpa using Nat.lt_of_succ_lt_succ hk
      simp [applyParams, h0, ih (i + 1) k' hk' hok' hfail']

/-- The loop returns the connection exactly when every statement outcome in
range succeeds. -/
theorem applyParams_isOk_iff (c : Conn) (exec : Nat → Except Err Unit)
    (ps : List (String × String)) :
    ∀ i : Nat, (applyParams c exec ps i).fst.isOk = true ↔
      ∀ j, j < ps.length → exec (i + j) = Except.ok () := by
  induction ps with
  | nil => intro i; simp [applyParams, ConnectOutcome.isOk]
  | cons kv rest ih =>
    intro i
    obtain ⟨k, v⟩ := kv
    cases hexec : exec i with
    | error e =>
      simp only [applyParams, hexec]
      constructor
      · intro h; exact absurd h (by simp [ConnectOutcome.isOk])
      · intro h
        have hh := h 0 (Nat.succ_pos _)
        simp [hexec] at hh
    | ok u =>
      cases u
      simp only [applyParams, hexec]
      rw [ih (i + 1)]
      constructor
      · intro h j hj
        cases j with
        | zero => simpa using hexec
        | succ j' =>
          have hj' : j' < rest.length := Nat.lt_of_succ_lt_succ hj
          have hh := h j' hj'
          have heq : i + 1 + j' = i + (j' + 1) := by omega
          rwa [heq] at hh
      · intro h j hj
        have hh := h (j + 1) (Nat.succ_lt_succ hj)
        have heq : i + (j + 1) = i + 1 + j := by omega
        rwa [heq] at hh

/-- The parameter loop never panics. -/
theorem applyParams_not_panicked (c : Conn) (exec : Nat → Except Err Unit)
    (ps : List (String × String)) :
    ∀ i : Nat, (applyParams c exec ps i).fst.isPanicked = false := by
  induction ps with
  | nil => intro i; rfl
  | cons kv rest ih =>
    intro i
    obtain ⟨k, v⟩ := kv
    cases hexec : exec i with
    | error e => simp [applyParams, hexec, ConnectOutcome.isPanicked]
    | ok u => cases u; simp [applyParams, hexec, ih (i + 1)]

/-- The events the loop emits do not depend on the connection value. -/
theorem applyParams_events_indep (c₁ c₂ : Conn) (exec : Nat → Except Err Unit)
    (ps : List (String × String)) :
    ∀ i : Nat, (applyParams c₁ exec ps i).snd = (applyParams c₂ exec ps i).snd := by
  induction ps with
  | nil => intro i; rfl
  | cons kv rest ih =>
    intro i
    obtain ⟨k, v⟩ := kv
    cases hexec : exec i with
    | error e => simp [applyParams, hexec]
    | ok u => cases u; simp [applyParams, hexec, ih (i + 1)]

/-- A watch event contributes no SET statement to the trace. -/
theorem execStmts_watchCall (p d : Nat) (r : TOpenSessionReq) (l : List Event) :
    execStmts (Event.watchCall p d r :: l) = execStmts l := rfl

/-- Extracting the statements of a trace that is all SET statements. -/
theorem execStmts_map_execStmt (f : String × String → String)
    (l : List (String × String)) :
    execStmts (l.map fun kv => Event.execStmt (f kv)) = l.map f := by
  induction l with
  | nil => rfl
  | cons kv rest ih => simp [execStmts, ih]

/-- Extracting the statements of a prefix of an all-SET-statement trace. -/
theorem execStmts_take_map (f : String × String → String)
    (l : List (String × String)) :
    ∀ n : Nat, execStmts ((l.map fun kv => Event.execStmt (f kv)).take n) = (l.map f).take n := by
  induction l with
  | nil => intro n; simp [execStmts]
  | cons kv rest ih =>
    intro n
    cases n with
    | zero => rfl
    | succ m => simp [execStmts, ih m]

/-- Unfolding `Connect` on the successful-open path: with a well-shaped
response whose handle and id are present, the run is the watch invocation
followed by the parameter loop over the built connection. -/
theorem connect_eq_applyParams (cfg : Config) (t : ThriftClient)
    (hid : THandleIdentifier) (exec : Nat → Except Err Unit) :
    Connect cfg (Except.ok t) (Except.ok (DynVal.openResp ⟨some ⟨some hid⟩⟩)) exec =
      ((applyParams (Conn.mk (SprintGuid hid.GUID) cfg t ⟨some ⟨some hid⟩⟩)
          exec cfg.SessionParams 0).fst,
        Event.watchCall cfg.PollInterval cfg.DefaultTimeout (buildOpenSessionReq cfg) ::
          (applyParams (Conn.mk (SprintGuid hid.GUID) cfg t ⟨some ⟨some hid⟩⟩)
            exec cfg.SessionParams 0).snd) := rfl

/-! ## Claim theorems -/

/-- C1: the code contradicts the spec here.  At a result of the expected
response shape whose session handle is absent, `Connect` does not return the
terminal `databricks: invalid open session response` error: line 61
dereferences the nil handle and the run panics. -/
theorem connect_nil_handle_panics :
    (Connect cfg0 (Except.ok t0) (Except.ok (DynVal.openResp respNoHandle)) execAllOk).fst =
      ConnectOutcome.panicked "invalid memory address or nil pointer dereference" ∧
    (Connect cfg0 (Except.ok t0) (Except.ok (DynVal.openResp respNoHandle)) execAllOk).fst ≠
      ConnectOutcome.err (Err.base "databricks: invalid open session response") :=
  ⟨rfl, by decide⟩

/-- C2: the open-session request maps the catalog and schema strings
independently; an empty string yields an absent identifier (never a present
identifier holding the empty string), and a non-empty string yields a
present identifier wrapping exactly that string. -/
theorem connect_namespace_resolution (cfg : Config) :
    ((cfg.Catalog = "" → (buildOpenSessionReq cfg).InitialNamespace.CatalogName = none) ∧
      (cfg.Catalog ≠ "" →
        (buildOpenSessionReq cfg).InitialNamespace.CatalogName = some cfg.Catalog)) ∧
    ((cfg.Schema = "" → (buildOpenSessionReq cfg).InitialNamespace.SchemaName = none) ∧
      (cfg.Schema ≠ "" →
        (buildOpenSessionReq cfg).InitialNamespace.SchemaName = some cfg.Schema)) := by
  refine ⟨⟨?_, ?_⟩, ?_, ?_⟩ <;> intro h <;> simp [buildOpenSessionReq, resolveIdentifier, h]

/-- A configuration with both catalog and schema set. -/
def cfgNs : Config := { cfg0 with Catalog := "main", Schema := "default" }

/-- Witness for C2 at concrete configurations: present identifiers for
`main`/`default`, absent identifiers for the empty strings. -/
theorem connect_namespace_resolution_witness :
    ((buildOpenSessionReq cfgNs).InitialNamespace.CatalogName = some "main" ∧
      (buildOpenSessionReq cfgNs).InitialNamespace.SchemaName = some "default") ∧
    ((buildOpenSessionReq cfg0).InitialNamespace.CatalogName = none ∧
      (buildOpenSessionReq cfg0).InitialNamespace.SchemaName = none) := by
  refine ⟨⟨?_, ?_⟩, ?_, ?_⟩
  · exact (connect_namespace_resolution cfgNs).1.2 (by decide)
  · exact (connect_namespace_resolution cfgNs).2.2 (by decide)
  · exact (connect_namespace_resolution cfg0).1.1 (by decide)
  · exact (connect_namespace_resolution cfg0).2.1 (by decide)

/-- C3: if the statement outcomes at 0-indexed positions `0..k-1` succeed
and the one at position `k` fails with `E`, `Connect` returns exactly `E`
(unwrapped) with no connection, and only the first `k+1` statements were
issued: the remaining parameters are never executed. -/
theorem connect_param_failure (cfg : Config) (t : ThriftClient)
    (resp : TOpenSessionResp) (handle : TSessionHandle) (hid : THandleIdentifier)
    (exec : Nat → Except Err Unit) (E : Err) (k : Nat)
    (hresp : resp.SessionHandle = some handle) (hsid : handle.SessionId = some hid)
    (hk : k < cfg.SessionParams.length)
    (hok : ∀ j, j < k → exec j = Except.ok ())
    (hfail : exec k = Except.error E) :
    (Connect cfg (Except.ok t) (Except.ok (DynVal.openResp resp)) exec).fst =
      ConnectOutcome.err E ∧
    execStmts (Connect cfg (Except.ok t) (Except.ok (DynVal.openResp resp)) exec).snd =
      (cfg.SessionParams.take (k + 1)).map (fun kv => setStmt kv.1 kv.2) := by
  obtain ⟨sh⟩ := resp
  obtain ⟨sid⟩ := handle
  have hsh : sh = some ⟨sid⟩ := hresp
  have hs2 : sid = some hid := hsid
  subst hsh
  subst hs2
  have hap := applyParams_fail_at
    (Conn.mk (SprintGuid hid.GUID) cfg t ⟨some ⟨some hid⟩⟩) exec E cfg.SessionParams 0 k hk
    (fun j hj => by simpa using hok j hj) (by simpa using hfail)
  rw [connect_eq_applyParams]
  constructor
  · simp [hap]
  · simp [hap, execStmts_watchCall, execStmts_map_execStmt, execStmts_take_map]

/-- A configuration with three session parameters. -/
def cfgC3 : Config := { cfg0 with SessionParams := [("a", "1"), ("b", "2"), ("c", "3")] }

/-- A statement oracle failing exactly at the second (0-indexed 1) call. -/
def execFailAt1 : Nat → Except Err Unit := fun i =>
  if i = 1 then Except.error (Err.base "boom") else Except.ok ()

/-- Witness for C3: with three parameters and the second statement failing,
the bare error comes back and only the first two statements were issued. -/
theorem connect_param_failure_witness :
    (Connect cfgC3 (Except.ok t0) (Except.ok (DynVal.openResp resp0)) execFailAt1).fst =
      ConnectOutcome.err (Err.base "boom") ∧
    execStmts (Connect cfgC3 (Except.ok t0) (Except.ok (DynVal.openResp resp0)) execFailAt1).snd =
      ["SET `a` = `1`;", "SET `b` = `2`;"] := by
  have h := connect_param_failure cfgC3 t0 resp0 handle0 hid0 execFailAt1 (Err.base "boom") 1
    rfl rfl (by decide) (fun j hj => by
      have hj0 : j = 0 := by omega
      subst hj0
      rfl) rfl
  exact ⟨h.1, by rw [h.2]; decide⟩

/-- C4: with every statement succeeding, `Connect` returns the connection
after issuing exactly one statement per configured parameter, in enumeration
order, each of the exact text `SET <key> = <value>;` with key and value
wrapped in backticks and embedded backticks not escaped; with no parameters,
no statement is issued. -/
theorem connect_success_params (cfg : Config) (t : ThriftClient)
    (resp : TOpenSessionResp) (handle : TSessionHandle) (hid : THandleIdentifier)
    (exec : Nat → Except Err Unit)
    (hresp : resp.SessionHandle = some handle) (hsid : handle.SessionId = some hid)
    (hall : ∀ j, j < cfg.SessionParams.length → exec j = Except.ok ()) :
    (Connect cfg (Except.ok t) (Except.ok (DynVal.openResp resp)) exec).fst =
      ConnectOutcome.ok (Conn.mk (SprintGuid hid.GUID) cfg t resp) ∧
    execStmts (Connect cfg (Except.ok t) (Except.ok (DynVal.openResp resp)) exec).snd =
      cfg.SessionParams.map (fun kv => setStmt kv.1 kv.2) ∧
    (∀ kv ∈ cfg.SessionParams, setStmt kv.1 kv.2 = "SET `" ++ kv.1 ++ "` = `" ++ kv.2 ++ "`;") ∧
    (cfg.SessionParams = [] →
      execStmts (Connect cfg (Except.ok t) (Except.ok (DynVal.openResp resp)) exec).snd = []) := by
  obtain ⟨sh⟩ := resp
  obtain ⟨sid⟩ := handle
  have hsh : sh = some ⟨sid⟩ := hresp
  have hs2 : sid = some hid := hsid
  subst hsh
  subst hs2
  have hap := applyParams_all_ok
    (Conn.mk (SprintGuid hid.GUID) cfg t ⟨some ⟨some hid⟩⟩) exec cfg.SessionParams 0
    (fun j hj => by simpa using hall j hj)
  rw [connect_eq_applyParams]
  refine ⟨by simp [hap], ?_, fun kv _ => rfl, ?_⟩
  · simp [hap, execStmts_watchCall, execStmts_map_execStmt]
  · intro hnil
    simp [hnil, applyParams, execStmts]

/-- A configuration with two session parameters, one key containing the
quoting character itself. -/
def cfgC4 : Config := { cfg0 with SessionParams := [("key`x", "v1"), ("b", "2")] }

/-- Witness for C4: both statements are issued in order, the embedded
backtick is not escaped, and the connection is returned with the rendered
identity. -/
theorem connect_success_params_witness :
    (Connect cfgC4 (Except.ok t0) (Except.ok (DynVal.openResp resp0)) execAllOk).fst =
      ConnectOutcome.ok
        (Conn.mk "00000000-0000-0000-0000-000000000000" cfgC4 t0 resp0) ∧
    execStmts (Connect cfgC4 (Except.ok t0) (Except.ok (DynVal.openResp resp0)) execAllOk).snd =
      ["SET `key`x` = `v1`;", "SET `b` = `2`;"] := by
  have h := connect_success_params cfgC4 t0 resp0 handle0 hid0 execAllOk rfl rfl
    (fun j hj => rfl)
  refine ⟨?_, ?_⟩
  · rw [h.1]; decide
  · rw [h.2.1]; decide

/-- C10: `NewConnector` never fails: for every option list it returns a
connector whose configuration is the argument-order left fold of the options
over the defaults, together with a nil error and no validation; in
particular appending two conflicting options lets the later one win. -/
theorem newConnector_total (options : List connOption) :
    (NewConnector options).snd = none ∧
    (NewConnector options).fst =
      Connector.mk (options.foldl (fun c opt => opt c) WithDefaults) ∧
    (NewConnector (options ++ [WithPort 9, WithPort 10])).fst.cfg.Port = 10 := by
  refine ⟨rfl, rfl, ?_⟩
  simp [NewConnector, List.foldl_append, WithPort]

/-- Configuration presenting the two-entry mapping a→1, b→2 in one
enumeration order. -/
def cfgP1 : Config := { cfg0 with SessionParams := [("a", "1"), ("b", "2")] }

/-- The same mapping presented in the other enumeration order; Go map
iteration order is unspecified and randomized across runs, so either
presentation can occur for the same configured mapping. -/
def cfgP2 : Config := { cfg0 with SessionParams := [("b", "2"), ("a", "1")] }

/-- C5 is refuted: two runs over the same session-parameter mapping (the
two lists are permutations of one another, i.e. the same key→value map)
issue the SET statements in different orders, because the replay order is
whatever enumeration order the Go map range loop happens to produce. -/
theorem connect_param_order_counterexample :
    cfgP1.SessionParams.Perm cfgP2.SessionParams ∧
    execStmts (Connect cfgP1 (Except.ok t0) (Except.ok (DynVal.openResp resp0)) execAllOk).snd ≠
      execStmts (Connect cfgP2 (Except.ok t0) (Except.ok (DynVal.openResp resp0)) execAllOk).snd := by
  constructor
  · exact List.Perm.swap ("b", "2") ("a", "1") []
  · decide

/-- C5 (amended): the statement sequence is a deterministic function of the
enumeration order the runtime presents — two runs whose configurations carry
the identical session-parameter enumeration (all other configuration fields
free to differ) and that receive the same oracle outcomes issue exactly the
same SET statements.  Determinism over the mapping itself fails, because the
map's enumeration order is not stable across runs (see the
counterexample). -/
theorem connect_param_order_deterministic (cfgA cfgB : Config)
    (initR : Except Err ThriftClient) (watchR : Except Err DynVal)
    (exec : Nat → Except Err Unit)
    (hparams : cfgA.SessionParams = cfgB.SessionParams) :
    execStmts (Connect cfgA initR watchR exec).snd =
      execStmts (Connect cfgB initR watchR exec).snd := by
  cases initR with
  | error e => rfl
  | ok t =>
    cases watchR with
    | error e => rfl
    | ok res =>
      cases res with
      | otherShape tag => rfl
      | openResp resp =>
        obtain ⟨sh⟩ := resp
        cases sh with
        | none => rfl
        | some handle =>
          obtain ⟨sid⟩ := handle
          cases sid with
          | none => rfl
          | some hid =>
            simp only [connect_eq_applyParams, execStmts_watchCall]
            rw [applyParams_events_indep
              (Conn.mk (SprintGuid hid.GUID) cfgA t ⟨some ⟨some hid⟩⟩)
              (Conn.mk (SprintGuid hid.GUID) cfgB t ⟨some ⟨some hid⟩⟩) exec
              cfgA.SessionParams 0]
            rw [hparams]

/-- Witness for the amended C5: two concrete runs differing only in host
but with the same enumeration issue the same statements. -/
theorem connect_param_order_deterministic_witness :
    execStmts (Connect cfgP1 (Except.ok t0) (Except.ok (DynVal.openResp resp0)) execAllOk).snd =
      execStmts (Connect { cfgP1 with Host := "other.example.com" } (Except.ok t0)
        (Except.ok (DynVal.openResp resp0)) execAllOk).snd :=
  connect_param_order_deterministic cfgP1 { cfgP1 with Host := "other.example.com" }
    (Except.ok t0) (Except.ok (DynVal.openResp resp0)) execAllOk rfl

/-- A configuration with one session parameter and a non-empty target. -/
def cfgC6 : Config := { cfg0 with SessionParams := [("a", "1")] }

/-- A statement oracle failing immediately with a bare error. -/
def execFail0 : Nat → Except Err Unit := fun _ => Except.error (Err.base "boom")

/-- C6 is refuted on the parameter-application path: although host, port
and path are all configured, the failing statement's error comes back
exactly as produced — a bare, unwrapped error carrying no connection-target
context at all (line 74 is `return nil, err`). -/
theorem connect_param_error_unwrapped :
    (Connect cfgC6 (Except.ok t0) (Except.ok (DynVal.openResp resp0)) execFail0).fst =
      ConnectOutcome.err (Err.base "boom") ∧
    (Err.base "boom").isWrapped = false :=
  ⟨rfl, rfl⟩

/-- C6 (amended): only session-open failures are enriched with the
host/port/path target context (cause preserved); client-initialization
failures are wrapped with a fixed message that preserves the cause but
carries no target context; parameter-application failures are returned
verbatim with no enrichment at all. -/
theorem connect_error_wrapping (cfg : Config) (e : Err) (t : ThriftClient)
    (watchR : Except Err DynVal) (exec : Nat → Except Err Unit)
    (resp : TOpenSessionResp) (handle : TSessionHandle) (hid : THandleIdentifier) (k : Nat)
    (hresp : resp.SessionHandle = some handle) (hsid : handle.SessionId = some hid) :
    (Connect cfg (Except.error e) watchR exec).fst =
      ConnectOutcome.err (Err.wrap e "error initializing thrift client") ∧
    (Connect cfg (Except.ok t) (Except.error e) exec).fst =
      ConnectOutcome.err (Err.wrap e ("error connecting: host=" ++ cfg.Host ++ " port=" ++
        toString cfg.Port ++ ", httpPath=" ++ cfg.HTTPPath)) ∧
    (k < cfg.SessionParams.length → (∀ j, j < k → exec j = Except.ok ()) →
      exec k = Except.error e →
      (Connect cfg (Except.ok t) (Except.ok (DynVal.openResp resp)) exec).fst =
        ConnectOutcome.err e) := by
  obtain ⟨sh⟩ := resp
  obtain ⟨sid⟩ := handle
  have hsh : sh = some ⟨sid⟩ := hresp
  have hs2 : sid = some hid := hsid
  subst hsh
  subst hs2
  refine ⟨rfl, rfl, fun hk hok hfail => ?_⟩
  have hap := applyParams_fail_at
    (Conn.mk (SprintGuid hid.GUID) cfg t ⟨some ⟨some hid⟩⟩) exec e cfg.SessionParams 0 k hk
    (fun j hj => by simpa using hok j hj) (by simpa using hfail)
  rw [connect_eq_applyParams]
  simp [hap]

/-- Witness for the amended C6 at concrete errors on all three failure
paths. -/
theorem connect_error_wrapping_witness :
    (Connect cfgC6 (Except.error (Err.base "dns")) (Except.ok (DynVal.openResp resp0))
        execAllOk).fst =
      ConnectOutcome.err (Err.wrap (Err.base "dns") "error initializing thrift client") ∧
    (Connect cfgC6 (Except.ok t0) (Except.error (Err.base "deadline")) execAllOk).fst =
      ConnectOutcome.err (Err.wrap (Err.base "deadline")
        "error connecting: host=dbc.example.com port=443, httpPath=/sql/1.0") ∧
    (Connect cfgC6 (Except.ok t0) (Except.ok (DynVal.openResp resp0)) execFail0).fst =
      ConnectOutcome.err (Err.base "boom") := by
  refine ⟨(connect_error_wrapping cfgC6 (Err.base "dns") t0
      (Except.ok (DynVal.openResp resp0)) execAllOk resp0 handle0 hid0 0 rfl rfl).1, ?_, ?_⟩
  · have h := (connect_error_wrapping cfgC6 (Err.base "deadline") t0
      (Except.error (Err.base "deadline")) execAllOk resp0 handle0 hid0 0 rfl rfl).2.1
    rw [h]
    decide
  · exact (connect_error_wrapping cfgC6 (Err.base "boom") t0
      (Except.ok (DynVal.openResp resp0)) execFail0 resp0 handle0 hid0 0 rfl rfl).2.2
      (by decide) (fun j hj => absurd hj (Nat.not_lt_zero j)) rfl

/-- C7 is refuted: at a well-shaped response whose handle carries no
session id, establishment fails, yet `Connect` neither returns a connection
nor a nil connection together with a non-nil error — the run panics. -/
theorem connect_failure_without_error_return :
    (Connect cfg0 (Except.ok t0) (Except.ok (DynVal.openResp respNoSid)) execAllOk).fst.isOk
        = false ∧
    (Connect cfg0 (Except.ok t0) (Except.ok (DynVal.openResp respNoSid)) execAllOk).fst.isErr
        = false ∧
    (Connect cfg0 (Except.ok t0) (Except.ok (DynVal.openResp respNoSid)) execAllOk).fst.isPanicked
        = true :=
  ⟨rfl, rfl, rfl⟩

/-- C7 (amended): `Connect` returns a connection exactly when client
initialization, the bounded session open, the shape check, the presence of
handle and session id, and all parameter applications succeed; every other
returning outcome is a nil connection with a non-nil error — except that a
well-shaped response with an absent handle or id makes the run panic, so
even then no partially constructed connection is exposed as success. -/
theorem connect_success_iff (cfg : Config) (initR : Except Err ThriftClient)
    (watchR : Except Err DynVal) (exec : Nat → Except Err Unit) :
    ((Connect cfg initR watchR exec).fst.isOk = true ↔
      ((∃ t, initR = Except.ok t) ∧
        (∃ resp handle hid, watchR = Except.ok (DynVal.openResp resp) ∧
          resp.SessionHandle = some handle ∧ handle.SessionId = some hid) ∧
        (∀ j, j < cfg.SessionParams.length → exec j = Except.ok ()))) ∧
    ((Connect cfg initR watchR exec).fst.isOk = false →
      (Connect cfg initR watchR exec).fst.isErr = true ∨
      (Connect cfg initR watchR exec).fst.isPanicked = true) ∧
    ((Connect cfg initR watchR exec).fst.isPanicked = true →
      ∃ resp, watchR = Except.ok (DynVal.openResp resp) ∧
        (resp.SessionHandle = none ∨
          ∃ handle, resp.SessionHandle = some handle ∧ handle.SessionId = none)) := by
  refine ⟨?_, fun h => outcome_not_ok_cases _ h, ?_⟩
  · cases initR with
    | error e => simp [Connect, wrapErr, ConnectOutcome.isOk]
    | ok t =>
      cases watchR with
      | error e => simp [Connect, wrapErrf, ConnectOutcome.isOk]
      | ok res =>
        cases res with
        | otherShape tag => simp [Connect, ConnectOutcome.isOk]
        | openResp resp =>
          obtain ⟨sh⟩ := resp
          cases sh with
          | none => simp [Connect, ConnectOutcome.isOk]
          | some handle =>
            obtain ⟨sid⟩ := handle
            cases sid with
            | none => simp [Connect, ConnectOutcome.isOk]
            | some hid =>
              rw [connect_eq_applyParams]
              constructor
              · intro h
                have hofst : (applyParams (Conn.mk (SprintGuid hid.GUID) cfg t
                    ⟨some ⟨some hid⟩⟩) exec cfg.SessionParams 0).fst.isOk = true := h
                have hall := (applyParams_isOk_iff _ exec cfg.SessionParams 0).mp hofst
                exact ⟨⟨t, rfl⟩, ⟨⟨some ⟨some hid⟩⟩, ⟨some hid⟩, hid, rfl, rfl, rfl⟩,
                  fun j hj => by simpa using hall j hj⟩
              · rintro ⟨-, -, hall⟩
                show (applyParams (Conn.mk (SprintGuid hid.GUID) cfg t
                    ⟨some ⟨some hid⟩⟩) exec cfg.SessionParams 0).fst.isOk = true
                exact (applyParams_isOk_iff _ exec cfg.SessionParams 0).mpr
                  (fun j hj => by simpa using hall j hj)
  · cases initR with
    | error e => intro h; simp [Connect, wrapErr, ConnectOutcome.isPanicked] at h
    | ok t =>
      cases watchR with
      | error e => intro h; simp [Connect, wrapErrf, ConnectOutcome.isPanicked] at h
      | ok res =>
        cases res with
        | otherShape tag => intro h; simp [Connect, ConnectOutcome.isPanicked] at h
        | openResp resp =>
          obtain ⟨sh⟩ := resp
          cases sh with
          | none => exact fun _ => ⟨⟨none⟩, rfl, Or.inl rfl⟩
          | some handle =>
            obtain ⟨sid⟩ := handle
            cases sid with
            | none => exact fun _ => ⟨⟨some ⟨none⟩⟩, rfl, Or.inr ⟨⟨none⟩, rfl, rfl⟩⟩
            | some hid =>
              intro h
              rw [connect_eq_applyParams] at h
              have hp : (applyParams (Conn.mk (SprintGuid hid.GUID) cfg t
                  ⟨some ⟨some hid⟩⟩) exec cfg.SessionParams 0).fst.isPanicked = true := h
              rw [applyParams_not_panicked] at hp
              exact Bool.noConfusion hp

/-- Witness for the amended C7 at a fully successful concrete run. -/
theorem connect_success_iff_witness :
    (Connect cfg0 (Except.ok t0) (Except.ok (DynVal.openResp resp0)) execAllOk).fst.isOk
      = true :=
  ((connect_success_iff cfg0 (Except.ok t0) (Except.ok (DynVal.openResp resp0))
      execAllOk).1).mpr
    ⟨⟨t0, rfl⟩, ⟨resp0, handle0, hid0, rfl, rfl, rfl⟩, fun _ _ => rfl⟩

/-- C8: whenever client initialization succeeds, the first observable event
is the bounded-wait invocation, carrying the configuration's poll interval
and default timeout and submitting a request that consists of exactly the
configured protocol version, an empty server-side configuration map, the
namespace resolved by the empty-string-to-absent rule, and the configured
multi-catalog capability flag. -/
theorem connect_watch_invocation (cfg : Config) (t : ThriftClient)
    (initR : Except Err ThriftClient) (watchR : Except Err DynVal)
    (exec : Nat → Except Err Unit) (hinit : initR = Except.ok t) :
    (Connect cfg initR watchR exec).snd.head? =
      some (Event.watchCall cfg.PollInterval cfg.DefaultTimeout (buildOpenSessionReq cfg)) ∧
    (buildOpenSessionReq cfg).ClientProtocol = cfg.ThriftProtocolVersion ∧
    (buildOpenSessionReq cfg).Configuration = [] ∧
    (buildOpenSessionReq cfg).InitialNamespace.CatalogName =
      (if cfg.Catalog = "" then none else some cfg.Catalog) ∧
    (buildOpenSessionReq cfg).InitialNamespace.SchemaName =
      (if cfg.Schema = "" then none else some cfg.Schema) ∧
    (buildOpenSessionReq cfg).CanUseMultipleCatalogs = some cfg.CanUseMultipleCatalogs := by
  subst hinit
  refine ⟨?_, rfl, rfl, ?_, ?_, rfl⟩
  · cases watchR with
    | error e => rfl
    | ok res =>
      cases res with
      | otherShape tag => rfl
      | openResp resp =>
        obtain ⟨sh⟩ := resp
        cases sh with
        | none => rfl
        | some handle =>
          obtain ⟨sid⟩ := handle
          cases sid with
          | none => rfl
          | some hid => rfl
  · simp [buildOpenSessionReq, resolveIdentifier, ite_not]
  · simp [buildOpenSessionReq, resolveIdentifier, ite_not]

/-- Witness for C8 at a concrete configuration with a non-empty catalog and
schema. -/
theorem connect_watch_invocation_witness :
    (Connect cfgNs (Except.ok t0) (Except.error (Err.base "x")) execAllOk).snd.head? =
      some (Event.watchCall cfgNs.PollInterval cfgNs.DefaultTimeout
        (buildOpenSessionReq cfgNs)) ∧
    (buildOpenSessionReq cfgNs).InitialNamespace.CatalogName = some "main" := by
  constructor
  · exact (connect_watch_invocation cfgNs t0 (Except.ok t0) (Except.error (Err.base "x"))
      execAllOk rfl).1
  · rw [(connect_watch_invocation cfgNs t0 (Except.ok t0) (Except.error (Err.base "x"))
      execAllOk rfl).2.2.2.1]
    decide

/-! ## Injectivity of the session-identity rendering (C9) -/

/-- Hex rendering emits two characters per byte. -/
theorem hexChars_length (bs : List Nat) : (hexChars bs).length = 2 * bs.length := by
  induction bs with
  | nil => rfl
  | cons b rest ih =>
    simp [hexChars, hexByte, ih]
    omega

/-- `hexDigit` is injective below 16. -/
theorem hexDigit_inj : ∀ a < 16, ∀ b < 16, hexDigit a = hexDigit b → a = b := by decide

/-- `hexByte` is injective on bytes. -/
theorem hexByte_inj (a b : Nat) (ha : a < 256) (hb : b < 256)
    (h : hexByte a = hexByte b) : a = b := by
  simp only [hexByte, List.cons.injEq, and_true] at h
  obtain ⟨h1, h2⟩ := h
  have d1 := hexDigit_inj (a / 16) (by omega) (b / 16) (by omega) h1
  have d2 := hexDigit_inj (a % 16) (by omega) (b % 16) (by omega) h2
  omega

/-- `hexChars` is injective on equal-length lists of bytes. -/
theorem hexChars_inj : ∀ (bs cs : List Nat), bs.length = cs.length →
    (∀ b ∈ bs, b < 256) → (∀ b ∈ cs, b < 256) →
    hexChars bs = hexChars cs → bs = cs := by
  intro bs
  induction bs with
  | nil =>
    intro cs hlen _ _ _
    cases cs with
    | nil => rfl
    | cons c cs' => simp at hlen
  | cons b rest ih =>
    intro cs hlen hb hc h
    cases cs with
    | nil => simp at hlen
    | cons c cs' =>
      simp only [hexChars] at h
      obtain ⟨h1, h2⟩ := List.append_inj h rfl
      have hbc : b = c := hexByte_inj b c (hb b (by simp)) (hc c (by simp)) h1
      have hrest : rest = cs' := ih cs' (by simpa using hlen)
        (fun x hx => hb x (by simp [hx])) (fun x hx => hc x (by simp [hx])) h2
      simp [hbc, hrest]

/-- Peeling one dash-separated group off two equal renderings. -/
theorem peel_group (a₁ a₂ r₁ r₂ : List Char) (hlen : a₁.length = a₂.length)
    (h : a₁ ++ '-' :: r₁ = a₂ ++ '-' :: r₂) : a₁ = a₂ ∧ r₁ = r₂ := by
  obtain ⟨h1, h2⟩ := List.append_inj h hlen
  exact ⟨h1, by simpa using h2⟩

/-- Any list is the concatenation of its five GUID byte groups. -/
theorem guid_decomp (g : List Nat) :
    g = g.take 4 ++ ((g.drop 4).take 2 ++ ((g.drop 6).take 2 ++
      ((g.drop 8).take 2 ++ g.drop 10))) := by
  have h6 : g.drop 4 = (g.drop 4).take 2 ++ g.drop 6 := by
    have hx := (List.take_append_drop 2 (g.drop 4)).symm
    simpa [List.drop_drop] using hx
  have h8 : g.drop 6 = (g.drop 6).take 2 ++ g.drop 8 := by
    have hx := (List.take_append_drop 2 (g.drop 6)).symm
    simpa [List.drop_drop] using hx
  have h10 : g.drop 8 = (g.drop 8).take 2 ++ g.drop 10 := by
    have hx := (List.take_append_drop 2 (g.drop 8)).symm
    simpa [List.drop_drop] using hx
  calc g = g.take 4 ++ g.drop 4 := (List.take_append_drop 4 g).symm
    _ = g.take 4 ++ ((g.drop 4).take 2 ++ g.drop 6) := by rw [← h6]
    _ = g.take 4 ++ ((g.drop 4).take 2 ++ ((g.drop 6).take 2 ++ g.drop 8)) := by
        rw [← h8]
    _ = g.take 4 ++ ((g.drop 4).take 2 ++ ((g.drop 6).take 2 ++
        ((g.drop 8).take 2 ++ g.drop 10))) := by rw [← h10]

/-- C9: the session-identity rendering is a pure function, deterministic
and injective over valid fixed-size binary identities: for 16-byte
identities the renderings agree exactly when the identities agree. -/
theorem sprintGuid_deterministic_injective (g₁ g₂ : List Nat)
    (hl₁ : g₁.length = 16) (hb₁ : ∀ b ∈ g₁, b < 256)
    (hl₂ : g₂.length = 16) (hb₂ : ∀ b ∈ g₂, b < 256) :
    SprintGuid g₁ = SprintGuid g₂ ↔ g₁ = g₂ := by
  constructor
  · intro h
    rw [SprintGuid, SprintGuid, if_pos hl₁, if_pos hl₂] at h
    have hdata : hexChars (g₁.take 4) ++ ['-'] ++ hexChars ((g₁.drop 4).take 2) ++ ['-'] ++
        hexChars ((g₁.drop 6).take 2) ++ ['-'] ++ hexChars ((g₁.drop 8).take 2) ++ ['-'] ++
        hexChars (g₁.drop 10) =
        hexChars (g₂.take 4) ++ ['-'] ++ hexChars ((g₂.drop 4).take 2) ++ ['-'] ++
        hexChars ((g₂.drop 6).take 2) ++ ['-'] ++ hexChars ((g₂.drop 8).take 2) ++ ['-'] ++
        hexChars (g₂.drop 10) := congrArg String.data h
    simp only [List.append_assoc, List.singleton_append] at hdata
    have e1 := peel_group _ _ _ _
      (by simp [hexChars_length, List.length_take, hl₁, hl₂]) hdata
    have e2 := peel_group _ _ _ _
      (by simp [hexChars_length, List.length_take, List.length_drop, hl₁, hl₂]) e1.2
    have e3 := peel_group _ _ _ _
      (by simp [hexChars_length, List.length_take, List.length_drop, hl₁, hl₂]) e2.2
    have e4 := peel_group _ _ _ _
      (by simp [hexChars_length, List.length_take, List.length_drop, hl₁, hl₂]) e3.2
    have s1 : g₁.take 4 = g₂.take 4 :=
      hexChars_inj _ _ (by simp [List.length_take, hl₁, hl₂])
        (fun x hx => hb₁ x (List.take_subset _ _ hx))
        (fun x hx => hb₂ x (List.take_subset _ _ hx)) e1.1
    have s2 : (g₁.drop 4).take 2 = (g₂.drop 4).take 2 :=
      hexChars_inj _ _ (by simp [List.length_take, List.length_drop, hl₁, hl₂])
        (fun x hx => hb₁ x (List.drop_subset _ _ (List.take_subset _ _ hx)))
        (fun x hx => hb₂ x (List.drop_subset _ _ (List.take_subset _ _ hx))) e2.1
    have s3 : (g₁.drop 6).take 2 = (g₂.drop 6).take 2 :=
      hexChars_inj _ _ (by simp [List.length_take, List.length_drop, hl₁, hl₂])
        (fun x hx => hb₁ x (List.drop_subset _ _ (List.take_subset _ _ hx)))
        (fun x hx => hb₂ x (List.drop_subset _ _ (List.take_subset _ _ hx))) e3.1
    have s4 : (g₁.drop 8).take 2 = (g₂.drop 8).take 2 :=
      hexChars_inj _ _ (by simp [List.length_take, List.length_drop, hl₁, hl₂])
        (fun x hx => hb₁ x (List.drop_subset _ _ (List.take_subset _ _ hx)))
        (fun x hx => hb₂ x (List.drop_subset _ _ (List.take_subset _ _ hx))) e4.1
    have s5 : g₁.drop 10 = g₂.drop 10 :=
      hexChars_inj _ _ (by simp [List.length_drop, hl₁, hl₂])
        (fun x hx => hb₁ x (List.drop_subset _ _ hx))
        (fun x hx => hb₂ x (List.drop_subset _ _ hx)) e4.2
    calc g₁ = g₁.take 4 ++ ((g₁.drop 4).take 2 ++ ((g₁.drop 6).take 2 ++
          ((g₁.drop 8).take 2 ++ g₁.drop 10))) := guid_decomp g₁
      _ = g₂.take 4 ++ ((g₂.drop 4).take 2 ++ ((g₂.drop 6).take 2 ++
          ((g₂.drop 8).take 2 ++ g₂.drop 10))) := by rw [s1, s2, s3, s4, s5]
      _ = g₂ := (guid_decomp g₂).symm
  · intro h
    rw [h]

/-- The all-zero GUID with its last byte replaced by 255. -/
def guidB : List Nat := List.replicate 15 0 ++ [255]

/-- Witness for C9: the injectivity equivalence instantiated at two
concrete, distinct valid identities, plus a concrete grouped-hex
rendering. -/
theorem sprintGuid_witness :
    (SprintGuid guid0 = SprintGuid guidB ↔ guid0 = guidB) ∧
    SprintGuid guid0 = "00000000-0000-0000-0000-000000000000" := by
  constructor
  · exact sprintGuid_deterministic_injective guid0 guidB (by decide) (by decide)
      (by decide) (by decide)
  · decide

end DBSQL
